import Mathlib

/-!
Shallow embedding of the xv6-net kernel network stack (Rust sources under
src/rust/src/) for checking the natural-language specification against the
code.  Machine integers are modelled as `Nat` with explicit `% 2 ^ w`
reductions where the Rust types truncate; fallible or panicking code returns
the `Res` outcome type below.  Definitions mirror the Rust source
function-by-function; deviations forced by the (mid-refactor) source are
recorded in doc comments.
-/

namespace XvNet

/-- Outcome of running a piece of the Rust code: a normal value, a
recoverable error (`Err(())` in the source), or a Rust runtime abort
(out-of-bounds slice index, failed `unwrap`, or an explicit abort). -/
inductive Res (α : Type) where
  | ok : α → Res α
  | err : Res α
  | panic : Res α
deriving DecidableEq

/-- `u16::to_be_bytes`: big-endian byte pair of a 16-bit value. -/
def be16 (x : Nat) : List Nat :=
  [x / 256 % 256, x % 256]

/-- `u16::from_be_bytes([a, b])` for bytes `a`, `b`. -/
def from_be16 (a b : Nat) : Nat :=
  256 * a + b

/-! ## packet_buffer.rs -/

/-- `PacketBuffer::BUFFER_SIZE` (packet_buffer.rs:4). -/
def BUFFER_SIZE : Nat := 2048

/-- `PacketBuffer` (packet_buffer.rs:9-18): raw byte region, parse/serialize
cursor `offset`, and the `written` mode flag. -/
structure PacketBuffer where
  buf : List Nat
  offset : Nat
  written : Bool
deriving DecidableEq

/-- `PacketBuffer::new` (packet_buffer.rs:22-29): zeroed buffer. -/
def PacketBuffer.new (size : Nat) : PacketBuffer :=
  ⟨List.replicate size 0, 0, false⟩

/-- `PacketBuffer::new_from_bytes` (packet_buffer.rs:32-43): buffer holding a
copy of `size` raw bytes. -/
def PacketBuffer.new_from_bytes (data : List Nat) : PacketBuffer :=
  ⟨data, 0, false⟩

/-- Trait `FromBuffer` (packet_buffer.rs:82-90).  `from_buffer` parses from a
byte slice; `size` is the post-parse advance used by `PacketBuffer::parse`. -/
class FromBuffer (α : Type) where
  from_buffer : List Nat → Res α
  size : α → Nat

/-- Trait `ToBuffer` (packet_buffer.rs:93-99).  `to_buffer` yields the bytes
written into the slice of length `size` handed over by
`PacketBuffer::serialize`; panics inside the Rust writer surface as
`Res.panic`. -/
class ToBuffer (α : Type) where
  to_buffer : α → Res (List Nat)
  size : α → Nat

/-- `PacketBuffer::parse` (packet_buffer.rs:47-54).  Rust slices with
`self.buf[self.offset..]`, which aborts when `offset > buf.len()`; on success
the offset advances by `value.size()`. -/
def PacketBuffer.parse (α : Type) [FromBuffer α] (pb : PacketBuffer) :
    Res (α × PacketBuffer) :=
  if pb.buf.length < pb.offset then .panic
  else
    match FromBuffer.from_buffer (α := α) (pb.buf.drop pb.offset) with
    | .panic => .panic
    | .err => .err
    | .ok value => .ok (value, { pb with offset := pb.offset + FromBuffer.size value })

/-- `PacketBuffer::serialize` (packet_buffer.rs:58-64): writes the value into
`buf[len−offset−size .. len−offset]`, setting `written` and advancing
`offset`.  When the new offset exceeds the capacity the Rust slice bounds
abort (usize underflow of `start` in the source). -/
def PacketBuffer.serialize {α : Type} [ToBuffer α] (pb : PacketBuffer) (value : α) :
    Res PacketBuffer :=
  match ToBuffer.to_buffer value with
  | .panic => .panic
  | .err => .err
  | .ok bytes =>
    let offset := pb.offset + ToBuffer.size value
    if pb.buf.length < offset then .panic
    else
      let start := pb.buf.length - offset
      .ok ⟨pb.buf.take start ++ bytes ++ pb.buf.drop (start + ToBuffer.size value),
           offset, true⟩

/-- `PacketBuffer::len` (packet_buffer.rs:67-69). -/
def PacketBuffer.len (pb : PacketBuffer) : Nat :=
  pb.offset

/-- The live bytes a reader of `as_ptr`/`len` observes
(packet_buffer.rs:72-78): trailing `offset` bytes in write mode, leading
`offset` bytes in parse mode. -/
def PacketBuffer.as_bytes (pb : PacketBuffer) : List Nat :=
  if pb.written then pb.buf.drop (pb.buf.length - pb.offset)
  else pb.buf.take pb.offset

/-! ## ethernet.rs -/

/-- `EthernetAddress` (ethernet.rs:5): six opaque bytes. -/
structure EthernetAddress where
  a0 : Nat
  a1 : Nat
  a2 : Nat
  a3 : Nat
  a4 : Nat
  a5 : Nat
deriving DecidableEq

/-- `EthernetAddress::from_slice` (ethernet.rs:8-10); callers guarantee at
least six bytes (the Rust indexing aborts otherwise, checked at each call
site of the model). -/
def EthernetAddress.from_slice (buf : List Nat) : EthernetAddress :=
  ⟨buf.getD 0 0, buf.getD 1 0, buf.getD 2 0, buf.getD 3 0, buf.getD 4 0, buf.getD 5 0⟩

/-- `EthernetAddress::as_bytes` (ethernet.rs:12-14). -/
def EthernetAddress.as_bytes (a : EthernetAddress) : List Nat :=
  [a.a0, a.a1, a.a2, a.a3, a.a4, a.a5]

/-- `Ethertype` (ethernet.rs:19-27). -/
inductive Ethertype where
  | IPV4
  | ARP
  | WAKE_ON_LAN
  | RARP
  | SLPP
  | IPV6
  | UNKNOWN
deriving DecidableEq

/-- `Ethertype::from_slice` decode table (ethernet.rs:30-42), on the
big-endian value of the two bytes. -/
def Ethertype.from_pair (a b : Nat) : Ethertype :=
  if from_be16 a b = 0x0800 then .IPV4
  else if from_be16 a b = 0x0806 then .ARP
  else if from_be16 a b = 0x0842 then .WAKE_ON_LAN
  else if from_be16 a b = 0x8035 then .RARP
  else if from_be16 a b = 0x8103 then .SLPP
  else if from_be16 a b = 0x86DD then .IPV6
  else .UNKNOWN

/-- `Ethertype::as_bytes` encode table (ethernet.rs:44-54), exactly as in the
source: note RARP encodes to 0x0842, SLPP to 0x8035 and IPV6 to 0x8103
(ethernet.rs:49-51). -/
def Ethertype.as_bytes : Ethertype → List Nat
  | .IPV4 => be16 0x0800
  | .ARP => be16 0x0806
  | .WAKE_ON_LAN => be16 0x0842
  | .RARP => be16 0x0842
  | .SLPP => be16 0x8035
  | .IPV6 => be16 0x8103
  | .UNKNOWN => be16 0xFFFF

/-- `EthernetFrame` (ethernet.rs:62-66). -/
structure EthernetFrame where
  destination : EthernetAddress
  source : EthernetAddress
  ethertype : Ethertype
deriving DecidableEq

/-- `EthernetFrame::new` (ethernet.rs:69-79). -/
def EthernetFrame.new (destination source : EthernetAddress) (ethertype : Ethertype) :
    EthernetFrame :=
  ⟨destination, source, ethertype⟩

/-- `EthernetFrame::from_slice` (ethernet.rs:82-88); the Rust slice indexing
(`buf[0..6]` through `buf[12..14]`) aborts when fewer than 14 bytes are
available. -/
def EthernetFrame.from_slice (buf : List Nat) : Res EthernetFrame :=
  if buf.length < 14 then .panic
  else .ok ⟨EthernetAddress.from_slice (buf.take 6),
            EthernetAddress.from_slice ((buf.drop 6).take 6),
            Ethertype.from_pair (buf.getD 12 0) (buf.getD 13 0)⟩

/-- `EthernetFrame::to_buffer` (ethernet.rs:102-108): 14 bytes. -/
def EthernetFrame.to_buffer (f : EthernetFrame) : List Nat :=
  f.destination.as_bytes ++ f.source.as_bytes ++ f.ethertype.as_bytes

instance : FromBuffer EthernetFrame where
  from_buffer := EthernetFrame.from_slice
  size _ := 14

instance : ToBuffer EthernetFrame where
  to_buffer f := .ok f.to_buffer
  size _ := 14

/-! ## ip.rs -/

/-- `Ipv4Addr` (ip.rs:5): four bytes. -/
structure Ipv4Addr where
  b0 : Nat
  b1 : Nat
  b2 : Nat
  b3 : Nat
deriving DecidableEq

/-- `Ipv4Addr::new` (ip.rs:9-11). -/
def Ipv4Addr.new (a b c d : Nat) : Ipv4Addr :=
  ⟨a, b, c, d⟩

/-- `Ipv4Addr::from_slice` (ip.rs:13-15); callers guarantee four bytes. -/
def Ipv4Addr.from_slice (buf : List Nat) : Ipv4Addr :=
  ⟨buf.getD 0 0, buf.getD 1 0, buf.getD 2 0, buf.getD 3 0⟩

/-- `Ipv4Addr::as_bytes` (ip.rs:18-20). -/
def Ipv4Addr.as_bytes (a : Ipv4Addr) : List Nat :=
  [a.b0, a.b1, a.b2, a.b3]

/-- Modelled from the spec: the `From<u32>` conversion for `Ipv4Addr` used by
net.rs (`Ipv4Addr::from(0x0A000002 as u32)`) is missing from src/ (the file
only shows `new`/`from_slice`/`as_bytes`); §3 of the spec says an `Ipv4Addr`
is constructed from a big-endian 32-bit integer. -/
def Ipv4Addr.fromU32 (n : Nat) : Ipv4Addr :=
  ⟨n / 2 ^ 24 % 256, n / 2 ^ 16 % 256, n / 2 ^ 8 % 256, n % 256⟩

/-- Protocol numbers (ip.rs:24-29). -/
inductive Protocol where
  | ICMP
  | TCP
  | UDP
  | UNKNOWN
deriving DecidableEq

/-- `Protocol::from_slice` on the first byte (ip.rs:32-39). -/
def Protocol.from_byte (b : Nat) : Protocol :=
  if b = 0x01 then .ICMP
  else if b = 0x06 then .TCP
  else if b = 0x11 then .UDP
  else .UNKNOWN

/-- `Protocol::as_bytes` (ip.rs:41-48). -/
def Protocol.as_byte : Protocol → Nat
  | .ICMP => 0x01
  | .TCP => 0x06
  | .UDP => 0x11
  | .UNKNOWN => 0xFF

/-- `Ipv4Packet` (ip.rs:58-73): IPv4 header without options.  Field values
carry the Rust integer widths as side conditions (`Ipv4Packet.wf`). -/
structure Ipv4Packet where
  version : Nat
  header_length : Nat
  dscp : Nat
  ecn : Nat
  total_length : Nat
  identification : Nat
  df : Bool
  mf : Bool
  fragment_offset : Nat
  time_to_live : Nat
  protocol : Protocol
  header_checksum : Nat
  source_address : Ipv4Addr
  destination_address : Ipv4Addr
deriving DecidableEq

/-- `Ipv4Packet::new` (ip.rs:79-108): version 4, header length 5, checksum
field zero. -/
def Ipv4Packet.new (dscp ecn total_length identification : Nat) (df mf : Bool)
    (fragment_offset time_to_live : Nat) (protocol : Protocol)
    (source_address destination_address : Ipv4Addr) : Ipv4Packet :=
  { version := 4
    header_length := 5
    dscp := dscp
    ecn := ecn
    total_length := total_length
    identification := identification
    df := df
    mf := mf
    fragment_offset := fragment_offset
    time_to_live := time_to_live
    protocol := protocol
    header_checksum := 0
    source_address := source_address
    destination_address := destination_address }

/-- `Ipv4Packet::from_slice` (ip.rs:111-128); callers guarantee 20 bytes.
`buf[0] >> 4` is division by 16 and the masks are the source masks. -/
def Ipv4Packet.from_slice (buf : List Nat) : Ipv4Packet :=
  { version := buf.getD 0 0 / 16
    header_length := buf.getD 0 0 % 16
    dscp := buf.getD 1 0 &&& 0xfc
    ecn := buf.getD 1 0 &&& 0x3
    total_length := from_be16 (buf.getD 2 0) (buf.getD 3 0)
    identification := from_be16 (buf.getD 4 0) (buf.getD 5 0)
    df := buf.getD 6 0 &&& 0x40 > 0
    mf := buf.getD 6 0 &&& 0x20 > 0
    fragment_offset := from_be16 (buf.getD 6 0 &&& 0x1f) (buf.getD 7 0)
    time_to_live := buf.getD 8 0
    protocol := Protocol.from_byte (buf.getD 9 0)
    header_checksum := from_be16 (buf.getD 10 0) (buf.getD 11 0)
    source_address := Ipv4Addr.new (buf.getD 12 0) (buf.getD 13 0) (buf.getD 14 0) (buf.getD 15 0)
    destination_address := Ipv4Addr.new (buf.getD 16 0) (buf.getD 17 0) (buf.getD 18 0) (buf.getD 19 0) }

/-- The ten big-endian 16-bit words of a 20-byte header buffer, unrolling the
loop `for i in (0..20).step_by(2)` of `calculate_checksum` (ip.rs:199-202). -/
def ipv4HeaderWords (buf : List Nat) : List Nat :=
  [from_be16 (buf.getD 0 0) (buf.getD 1 0),
   from_be16 (buf.getD 2 0) (buf.getD 3 0),
   from_be16 (buf.getD 4 0) (buf.getD 5 0),
   from_be16 (buf.getD 6 0) (buf.getD 7 0),
   from_be16 (buf.getD 8 0) (buf.getD 9 0),
   from_be16 (buf.getD 10 0) (buf.getD 11 0),
   from_be16 (buf.getD 12 0) (buf.getD 13 0),
   from_be16 (buf.getD 14 0) (buf.getD 15 0),
   from_be16 (buf.getD 16 0) (buf.getD 17 0),
   from_be16 (buf.getD 18 0) (buf.getD 19 0)]

/-- `Ipv4Packet::calculate_checksum` (ip.rs:197-207).  On `u32`, `>> 16` is
division by 2^16 and `& 0xffff` is reduction mod 2^16; ten 16-bit words cannot
overflow the 32-bit accumulator.  `!(check as u16)` is `0xFFFF − check % 2^16`. -/
def Ipv4Packet.calculate_checksum (buf : List Nat) : Nat :=
  let sum := (ipv4HeaderWords buf).sum
  let check1 := sum / 65536 + sum % 65536
  let check2 := check1 / 65536 + check1
  65535 - check2 % 65536

/-- The 20-byte header image built by `Ipv4Packet::write` before the checksum
is spliced in (ip.rs:139-183): the `bytes` array with a zero checksum field.
`byte <<= 4` is `<<< 4` and the flag bits follow ip.rs:166-167 exactly — both
DF and MF are shifted to bit 14 in the source.  `time_to_live` and the
address bytes are `u8` values written verbatim. -/
def Ipv4Packet.write_zero (p : Ipv4Packet) : List Nat :=
  [((p.version &&& 0xf) <<< 4) ||| (p.header_length &&& 0xf),
   (p.dscp &&& 0xfc) ||| (p.ecn &&& 0x3)]
  ++ be16 p.total_length
  ++ be16 p.identification
  ++ be16 (((if p.df then 1 else 0) <<< 14) ||| ((if p.mf then 1 else 0) <<< 14)
             ||| (p.fragment_offset &&& 0x0FFF))
  ++ [p.time_to_live, p.protocol.as_byte]
  ++ be16 0
  ++ p.source_address.as_bytes
  ++ p.destination_address.as_bytes

/-- `Ipv4Packet::write` (ip.rs:137-191): the pre-checksum image with the
computed checksum copied into bytes 10..12. -/
def Ipv4Packet.write (p : Ipv4Packet) : List Nat :=
  let bytes := p.write_zero
  let checksum := Ipv4Packet.calculate_checksum bytes
  bytes.take 10 ++ be16 checksum ++ bytes.drop 12

/-- Well-formedness of the `u8`-typed fields that `write` copies verbatim
(the other fields are masked or byte-split by `write` itself). -/
def Ipv4Addr.wf (a : Ipv4Addr) : Prop :=
  a.b0 < 256 ∧ a.b1 < 256 ∧ a.b2 < 256 ∧ a.b3 < 256

/-- Well-formed IPv4 header: the fields serialized without masking are in
range of their Rust types. -/
def Ipv4Packet.wf (p : Ipv4Packet) : Prop :=
  p.time_to_live < 256 ∧ p.source_address.wf ∧ p.destination_address.wf

instance : DecidablePred Ipv4Addr.wf := fun a => by unfold Ipv4Addr.wf; infer_instance

instance : DecidablePred Ipv4Packet.wf := fun p => by unfold Ipv4Packet.wf; infer_instance

/-- `impl FromBuffer for Ipv4Packet` (ip.rs:266-274): the source returns the
parsed header without a failure path (the slice indexing aborts below 20
bytes) and reports a post-parse `size` of 40, not 20 — kept as in the
source. -/
instance : FromBuffer Ipv4Packet where
  from_buffer buf := if buf.length < 20 then .panic else .ok (Ipv4Packet.from_slice buf)
  size _ := 40

/-- Modelled from the spec: `impl ToBuffer for Ipv4Packet` is missing from
src/ (net.rs serializes `Ipv4Packet` values, but ip.rs only implements
`FromBuffer`); §4.2 of the spec fixes the wire image to the 20-byte header
written by `write` with the pre-serialize size 20. -/
instance : ToBuffer Ipv4Packet where
  to_buffer p := .ok p.write
  size _ := 20

/-! ## arp.rs -/

/-- `HardwareType` (arp.rs:66-69). -/
inductive HardwareType where
  | Ethernet
  | Unknown
deriving DecidableEq

/-- `HardwareType::from_slice` (arp.rs:72-77). -/
def HardwareType.from_pair (a b : Nat) : HardwareType :=
  if from_be16 a b = 0x0001 then .Ethernet else .Unknown

/-- `HardwareType::as_bytes` (arp.rs:79-84). -/
def HardwareType.as_bytes : HardwareType → List Nat
  | .Ethernet => be16 0x0001
  | .Unknown => be16 0x0000

/-- `ProtocolType` (arp.rs:88-91). -/
inductive ProtocolType where
  | Ipv4
  | Unknown
deriving DecidableEq

/-- `ProtocolType::from_slice` (arp.rs:94-99). -/
def ProtocolType.from_pair (a b : Nat) : ProtocolType :=
  if from_be16 a b = 0x0800 then .Ipv4 else .Unknown

/-- `ProtocolType::as_bytes` (arp.rs:101-106). -/
def ProtocolType.as_bytes : ProtocolType → List Nat
  | .Ipv4 => be16 0x0800
  | .Unknown => be16 0x0000

/-- `Operation` (arp.rs:110-114). -/
inductive Operation where
  | Request
  | Reply
  | Unknown
deriving DecidableEq

/-- `Operation::from_slice` (arp.rs:117-123). -/
def Operation.from_pair (a b : Nat) : Operation :=
  if from_be16 a b = 0x0001 then .Request
  else if from_be16 a b = 0x0002 then .Reply
  else .Unknown

/-- `Operation::as_bytes` (arp.rs:125-131). -/
def Operation.as_bytes : Operation → List Nat
  | .Request => be16 0x0001
  | .Reply => be16 0x0002
  | .Unknown => be16 0xFFFF

/-- `ArpPacket` (arp.rs:136-146). -/
structure ArpPacket where
  htype : HardwareType
  ptype : ProtocolType
  hlen : Nat
  plen : Nat
  oper : Operation
  sha : EthernetAddress
  spa : Ipv4Addr
  tha : EthernetAddress
  tpa : Ipv4Addr
deriving DecidableEq

/-- `ArpPacket::from_slice` (arp.rs:149-161); the Rust slice indexing reads
bytes 0..28 and aborts when fewer than 28 bytes are available. -/
def ArpPacket.from_slice (buf : List Nat) : Res ArpPacket :=
  if buf.length < 28 then .panic
  else .ok
    { htype := HardwareType.from_pair (buf.getD 0 0) (buf.getD 1 0)
      ptype := ProtocolType.from_pair (buf.getD 2 0) (buf.getD 3 0)
      hlen := buf.getD 4 0
      plen := buf.getD 5 0
      oper := Operation.from_pair (buf.getD 6 0) (buf.getD 7 0)
      sha := EthernetAddress.from_slice (buf.drop 8)
      spa := Ipv4Addr.from_slice (buf.drop 14)
      tha := EthernetAddress.from_slice (buf.drop 18)
      tpa := Ipv4Addr.from_slice (buf.drop 24) }

/-- `ArpPacket::from_request` (arp.rs:164-176): reply with `sha = our MAC`,
`spa = request.tpa`, `tha = request.sha`, `tpa = request.spa`. -/
def ArpPacket.from_request (request : ArpPacket) (mac_address : EthernetAddress) :
    ArpPacket :=
  { htype := .Ethernet
    ptype := .Ipv4
    hlen := 0x06
    plen := 0x04
    oper := .Reply
    sha := mac_address
    spa := request.tpa
    tha := request.sha
    tpa := request.spa }

/-- `ArpPacket::to_buffer` (arp.rs:190-202): 28 bytes. -/
def ArpPacket.to_buffer (p : ArpPacket) : List Nat :=
  p.htype.as_bytes ++ p.ptype.as_bytes ++ [p.hlen, p.plen] ++ p.oper.as_bytes
    ++ p.sha.as_bytes ++ p.spa.as_bytes ++ p.tha.as_bytes ++ p.tpa.as_bytes

instance : FromBuffer ArpPacket where
  from_buffer := ArpPacket.from_slice
  size _ := 28

instance : ToBuffer ArpPacket where
  to_buffer p := .ok p.to_buffer
  size _ := 28

/-! ## icmp.rs -/

/-- `Type` in icmp.rs:39-60 (named `IcmpType` here because `Type` is a Lean
keyword); only the constructors reachable from the decode table are listed
together with the catch-all. -/
inductive IcmpType where
  | EchoReply
  | Reserved
  | DestinationUnreachable
  | SourceQuench
  | RedirectMessage
  | EchoRequest
  | Unknown
deriving DecidableEq

/-- `Type::from_slice` on the first byte (icmp.rs:63-73). -/
def IcmpType.from_byte (b : Nat) : IcmpType :=
  if b = 0x00 then .EchoReply
  else if b = 0x01 then .Reserved
  else if b = 0x02 then .Reserved
  else if b = 0x03 then .DestinationUnreachable
  else if b = 0x04 then .SourceQuench
  else if b = 0x08 then .EchoRequest
  else .Unknown

/-- `Type::as_bytes` (icmp.rs:75-86): the encode table aborts (`panic`) for
every type other than the five listed arms. -/
def IcmpType.as_byte : IcmpType → Res Nat
  | .EchoReply => .ok 0x00
  | .Reserved => .ok 0x01
  | .DestinationUnreachable => .ok 0x03
  | .SourceQuench => .ok 0x04
  | .EchoRequest => .ok 0x08
  | _ => .panic

/-- `IcmpEchoMessage` (icmp.rs:9-16); the field `r#type` is `type` here. -/
structure IcmpEchoMessage where
  type : IcmpType
  code : Nat
  checksum : Nat
  identifier : Nat
  sequence_number : Nat
  data : List Nat
deriving DecidableEq

/-- `IcmpEchoMessage::from_request` (icmp.rs:20-29): copy everything, set
`type = EchoReply`, `code = 0`. -/
def IcmpEchoMessage.from_request (req : IcmpEchoMessage) : IcmpEchoMessage :=
  { type := .EchoReply
    code := 0
    checksum := req.checksum
    identifier := req.identifier
    sequence_number := req.sequence_number
    data := req.data }

/-- `IcmpPacket` (icmp.rs:34-36). -/
inductive IcmpPacket where
  | EchoMessage : IcmpEchoMessage → IcmpPacket
deriving DecidableEq

/-- `IcmpPacket::from_slice` (icmp.rs:90-103): decodes the type byte
(aborting on an empty slice), builds an echo message for EchoReply or
EchoRequest (aborting below 8 bytes), and aborts (`_ => panic`) for every
other type. -/
def IcmpPacket.from_slice (buf : List Nat) : Res IcmpPacket :=
  if buf.length < 1 then .panic
  else
    match IcmpType.from_byte (buf.getD 0 0) with
    | .EchoReply =>
      if buf.length < 8 then .panic
      else .ok (.EchoMessage
        { type := .EchoReply
          code := buf.getD 1 0
          checksum := from_be16 (buf.getD 2 0) (buf.getD 3 0)
          identifier := from_be16 (buf.getD 4 0) (buf.getD 5 0)
          sequence_number := from_be16 (buf.getD 6 0) (buf.getD 7 0)
          data := buf.drop 8 })
    | .EchoRequest =>
      if buf.length < 8 then .panic
      else .ok (.EchoMessage
        { type := .EchoRequest
          code := buf.getD 1 0
          checksum := from_be16 (buf.getD 2 0) (buf.getD 3 0)
          identifier := from_be16 (buf.getD 4 0) (buf.getD 5 0)
          sequence_number := from_be16 (buf.getD 6 0) (buf.getD 7 0)
          data := buf.drop 8 })
    | _ => .panic

/-- Big-endian 16-bit words of consecutive byte pairs (shared by the ICMP and
UDP checksums); an odd trailing byte is not consumed — the callers abort in
that case, mirroring the out-of-bounds pair access in the source. -/
def chunkWords : List Nat → List Nat
  | a :: b :: rest => from_be16 a b :: chunkWords rest
  | _ => []

/-- `IcmpPacket::calculate_checksum` (icmp.rs:105-115): the loop
`(0..buf.len()).step_by(2)` reads `buf[i + 1]` and aborts when the length is
odd; otherwise it is the same double-fold complement as the IPv4 checksum. -/
def IcmpPacket.calculate_checksum (buf : List Nat) : Res Nat :=
  if buf.length % 2 = 1 then .panic
  else
    let sum := (chunkWords buf).sum
    let check1 := sum / 65536 + sum % 65536
    let check2 := check1 / 65536 + check1
    .ok (65535 - check2 % 65536)

/-- `impl ToBuffer for IcmpPacket` (icmp.rs:131-147): write the message with
a zero checksum field, checksum the whole written slice, splice the checksum
into bytes 2..4. -/
def IcmpPacket.to_buffer : IcmpPacket → Res (List Nat)
  | .EchoMessage x =>
    match x.type.as_byte with
    | .ok t =>
      let image := [t, x.code, 0, 0] ++ be16 x.identifier ++ be16 x.sequence_number ++ x.data
      match IcmpPacket.calculate_checksum image with
      | .ok checksum =>
        .ok ([t, x.code] ++ be16 checksum ++ be16 x.identifier
              ++ be16 x.sequence_number ++ x.data)
      | _ => .panic
    | _ => .panic

instance : FromBuffer IcmpPacket where
  from_buffer := IcmpPacket.from_slice
  size p := match p with | .EchoMessage x => 8 + x.data.length

instance : ToBuffer IcmpPacket where
  to_buffer := IcmpPacket.to_buffer
  size p := match p with | .EchoMessage x => 8 + x.data.length

/-! ## udp.rs -/

/-- `UdpPacket` (udp.rs:7-13). -/
structure UdpPacket where
  source_port : Nat
  dest_port : Nat
  len : Nat
  checksum : Nat
  data : List Nat
deriving DecidableEq

/-- `UdpPacket::new` (udp.rs:16-24): `len = (data.len() + 8) as u16`,
checksum field zero. -/
def UdpPacket.new (source_port dest_port : Nat) (data : List Nat) : UdpPacket :=
  { source_port := source_port
    dest_port := dest_port
    len := (data.length + 8) % 65536
    checksum := 0
    data := data }

/-- `UdpPacket::from_slice` (udp.rs:26-37): explicit length check, no
aborts. -/
def UdpPacket.from_slice (buf : List Nat) : Res UdpPacket :=
  if buf.length < 8 then .err
  else .ok
    { source_port := from_be16 (buf.getD 0 0) (buf.getD 1 0)
      dest_port := from_be16 (buf.getD 2 0) (buf.getD 3 0)
      len := from_be16 (buf.getD 4 0) (buf.getD 5 0)
      checksum := from_be16 (buf.getD 6 0) (buf.getD 7 0)
      data := buf.drop 8 }

/-- `impl ToBuffer for UdpPacket` (udp.rs:50-73).  The checksum input is the
11 + |data| bytes built at udp.rs:56-62 (ports, length field, `[0, 17]`, the
3-byte length triple, then the payload); `chunks(2)` reads `x[1]` of the last
chunk and aborts when that length is odd (every even payload size).  The
`u16` sum wraps (release-build semantics), is complemented, and is written at
bytes 6..8. -/
def UdpPacket.to_buffer (u : UdpPacket) : Res (List Nat) :=
  let checksum_data :=
    be16 u.source_port ++ be16 u.dest_port ++ be16 u.len
      ++ [0, 17] ++ [0, u.data.length % 256, u.data.length / 256 % 256] ++ u.data
  if checksum_data.length % 2 = 1 then .panic
  else
    let checksum := 65535 - ((chunkWords checksum_data).sum + checksum_data.length / 2) % 65536
    .ok (be16 u.source_port ++ be16 u.dest_port ++ be16 u.len ++ be16 checksum ++ u.data)

instance : FromBuffer UdpPacket where
  from_buffer := UdpPacket.from_slice
  size u := 8 + u.data.length

instance : ToBuffer UdpPacket where
  to_buffer := UdpPacket.to_buffer
  size u := 8 + u.data.length

/-! ## net.rs — ARP cache, socket table, syscall cores, ingress pipeline.

The three spinlocked globals (`NETWORK_DEVICE`, `ARP_CACHE`, `SOCKETS`) are
passed and returned explicitly; the device is represented by its two
addresses plus the list of byte strings handed to `NetworkDevice::send`. -/

/-- `ArpCache` (arp.rs:14): a map from protocol to hardware addresses,
modelled as an association list (`BTreeMap` insert/lookup semantics). -/
abbrev ArpCache := List (Ipv4Addr × EthernetAddress)

/-- `BTreeMap::insert` for the ARP cache: replace the entry if the key is
present, otherwise add it. -/
def ArpCache.insert (k : Ipv4Addr) (v : EthernetAddress) : ArpCache → ArpCache
  | [] => [(k, v)]
  | (k2, v2) :: rest =>
    if k = k2 then (k, v) :: rest else (k2, v2) :: ArpCache.insert k v rest

/-- `ArpCache::hardware_address` (arp.rs:18-22). -/
def ArpCache.hardware_address (cache : ArpCache) (protocol_address : Ipv4Addr) :
    Option EthernetAddress :=
  (cache.find? (fun kv => kv.1 = protocol_address)).map (fun kv => kv.2)

/-- `ArpCache::reply` (arp.rs:25-33): ignore Request/Unknown operations,
insert `spa ↦ sha` for a Reply. -/
def ArpCache.reply (cache : ArpCache) (arp_packet : ArpPacket) : ArpCache :=
  match arp_packet.oper with
  | .Request | .Unknown => cache
  | .Reply => cache.insert arp_packet.spa arp_packet.sha

/-- `SocketType` (net.rs:56-59). -/
inductive SocketType where
  | TCP
  | UDP
deriving DecidableEq

/-- `Socket` (net.rs:63-71). -/
structure Socket where
  type : SocketType
  source_port : Option Nat
  source_address : Option Ipv4Addr
  dest_port : Option Nat
  dest_protocol_address : Option Ipv4Addr
  dest_hardware_address : Option EthernetAddress
  buffer : List Nat
deriving DecidableEq

/-- The socket table `SOCKETS` (net.rs:32): a `BTreeMap<usize, Socket>`,
modelled as an association list kept sorted by key so that iteration order
matches the ascending `BTreeMap` iteration. -/
abbrev Sockets := List (Nat × Socket)

/-- `BTreeMap::insert` for the socket table, keeping keys sorted: replace on
an existing key, otherwise insert in order. -/
def Sockets.insert (k : Nat) (v : Socket) : Sockets → Sockets
  | [] => [(k, v)]
  | (k2, v2) :: rest =>
    if k = k2 then (k, v) :: rest
    else if k < k2 then (k, v) :: (k2, v2) :: rest
    else (k2, v2) :: Sockets.insert k v rest

/-- `BTreeMap::get`/`get_mut` lookup. -/
def Sockets.lookup (sockets : Sockets) (k : Nat) : Option Socket :=
  (sockets.find? (fun kv => kv.1 == k)).map (fun kv => kv.2)

/-- Write back a mutated socket under its key. -/
def Sockets.update (sockets : Sockets) (k : Nat) (s : Socket) : Sockets :=
  sockets.map (fun kv => if kv.1 == k then (k, s) else kv)

/-- `create_socket` (net.rs:243-261): the new id is the current table size
and a blank socket is inserted under it. -/
def create_socket (domain : SocketType) (sockets : Sockets) : Nat × Sockets :=
  let socket_id := sockets.length
  (socket_id,
   Sockets.insert socket_id
     { type := domain
       source_port := none
       source_address := none
       dest_port := none
       dest_protocol_address := none
       dest_hardware_address := none
       buffer := [] } sockets)

/-- `shutdown_socket` (net.rs:436-442): `BTreeMap::remove`, error when the
id is unknown. -/
def shutdown_socket (sockets : Sockets) (socket_id : Nat) : Res Sockets :=
  if sockets.any (fun kv => kv.1 == socket_id)
  then .ok (sockets.filter (fun kv => kv.1 != socket_id))
  else .err

/-- `recv` (net.rs:407-433): non-blocking; returns the byte count, the bytes
copied to the user buffer, and the updated socket table.  `copy_size` is
`min(len, queue_len)`; the source then calls `truncate(queue_len −
copy_size)`, which keeps the FIRST `queue_len − copy_size` bytes. -/
def recv (sockets : Sockets) (socket_id : Nat) (len : Nat) :
    Res (Nat × List Nat × Sockets) :=
  match sockets.lookup socket_id with
  | none => .err
  | some socket =>
    if socket.buffer.length = 0 then .ok (0, [], sockets)
    else
      let copy_size := if socket.buffer.length > len then len else socket.buffer.length
      let out := socket.buffer.take copy_size
      let new_size := socket.buffer.length - copy_size
      .ok (copy_size, out,
           sockets.update socket_id { socket with buffer := socket.buffer.take new_size })

/-- `connect` (net.rs:281-336).  The two reads of the ARP cache are passed in
explicitly: `cache_hit` is the first `hardware_address` lookup and
`cache_after_wait` the one after the TSC busy-wait (its value depends on
interrupts delivered during the wait).  The final destination-port
conversion is `(dest_port as i16).try_into().unwrap()`: the low 16 bits
reinterpreted as `i16` are negative exactly when bit 15 is set, and the
`unwrap` of the failed `u16` conversion aborts. -/
def connect (sockets : Sockets) (socket_id : Nat) (dest_address dest_port : Nat)
    (cache_hit cache_after_wait : Option EthernetAddress) : Res Sockets :=
  match sockets.lookup socket_id with
  | none => .err
  | some socket =>
    let dest_protocol_address := Ipv4Addr.fromU32 dest_address
    match (match cache_hit with
           | some x => some x
           | none => cache_after_wait) with
    | none => .err
    | some dest_hardware_address =>
      if 32768 ≤ dest_port % 65536 then .panic
      else
        .ok (sockets.update socket_id
          { socket with
            source_port := some ((1024 + socket_id) % 65536)
            source_address := some (Ipv4Addr.fromU32 0x0A000002)
            dest_port := some (dest_port % 65536)
            dest_hardware_address := some dest_hardware_address
            dest_protocol_address := some dest_protocol_address })

/-- `handle_icmp` (net.rs:538-555): parse an `IcmpPacket`; for an
`EchoRequest` build the reply message and serialize it into a fresh
`PacketBuffer`. -/
def handle_icmp (buffer : PacketBuffer) : Res (Option PacketBuffer) :=
  match buffer.parse IcmpPacket with
  | .panic => .panic
  | .err => .ok none
  | .ok (icmp_packet, _) =>
    match icmp_packet with
    | .EchoMessage x =>
      if x.type = .EchoRequest then
        match (PacketBuffer.new BUFFER_SIZE).serialize
            (IcmpPacket.EchoMessage (IcmpEchoMessage.from_request x)) with
        | .ok packet => .ok (some packet)
        | .err => .err
        | .panic => .panic
      else .ok none

/-- `handle_arp` (net.rs:561-590): parse an `ArpPacket`; a Request targeting
the device's protocol address yields a serialized `from_request` reply; a
Reply updates the ARP cache; anything else is dropped. -/
def handle_arp (buffer : PacketBuffer) (devMac : EthernetAddress) (devIp : Ipv4Addr)
    (cache : ArpCache) : Res (Option PacketBuffer × ArpCache) :=
  match buffer.parse ArpPacket with
  | .panic => .panic
  | .err => .ok (none, cache)
  | .ok (arp_packet, _) =>
    match arp_packet.oper with
    | .Request =>
      if arp_packet.tpa = devIp then
        match (PacketBuffer.new BUFFER_SIZE).serialize
            (ArpPacket.from_request arp_packet devMac) with
        | .ok packet => .ok (some packet, cache)
        | .err => .err
        | .panic => .panic
      else .ok (none, cache)
    | .Reply => .ok (none, cache.reply arp_packet)
    | .Unknown => .ok (none, cache)

/-- `handle_udp` (net.rs:596-629): parse a `UdpPacket`, find the first socket
(in ascending id order) whose `source_port` equals the packet's destination
port, and append the payload when `queue_len + data_len < BUFFER_SIZE`. -/
def handle_udp (buffer : PacketBuffer) (sockets : Sockets) : Res Sockets :=
  match buffer.parse UdpPacket with
  | .panic => .panic
  | .err => .ok sockets
  | .ok (packet, _) =>
    match sockets.find? (fun kv => kv.2.source_port == some packet.dest_port) with
    | none => .ok sockets
    | some (socket_id, socket) =>
      if socket.buffer.length + packet.data.length ≥ BUFFER_SIZE then .ok sockets
      else .ok (sockets.update socket_id { socket with buffer := socket.buffer ++ packet.data })

/-- `handle_packet` (net.rs:468-535): the per-frame ingress pipeline.
`frame` is the raw byte string wrapped by `PacketBuffer::new_from_bytes`;
the result is the list of emitted frames (arguments of
`NetworkDevice::send`, in order) together with the updated ARP cache and
socket table. -/
def handle_packet (frame : List Nat) (devMac : EthernetAddress) (devIp : Ipv4Addr)
    (cache : ArpCache) (sockets : Sockets) :
    Res (List (List Nat) × ArpCache × Sockets) :=
  let buffer := PacketBuffer.new_from_bytes frame
  match buffer.parse EthernetFrame with
  | .panic => .panic
  | .err => .ok ([], cache, sockets)
  | .ok (ethernet_frame, b1) =>
    match ethernet_frame.ethertype with
    | .IPV4 =>
      match b1.parse Ipv4Packet with
      | .panic => .panic
      | .err => .ok ([], cache, sockets)
      | .ok (ip_packet, b2) =>
        match ip_packet.protocol with
        | .ICMP =>
          match handle_icmp b2 with
          | .panic => .panic
          | .err => .err
          | .ok none => .ok ([], cache, sockets)
          | .ok (some x) =>
            match x.serialize (Ipv4Packet.new 0 0 ((x.len + 20) % 65536) 0 true false 0 64
                .ICMP devIp ip_packet.source_address) with
            | .panic => .panic
            | .err => .err
            | .ok x2 =>
              match x2.serialize (EthernetFrame.new ethernet_frame.source devMac .IPV4) with
              | .panic => .panic
              | .err => .err
              | .ok x3 => .ok ([x3.as_bytes], cache, sockets)
        | .UDP =>
          match handle_udp b2 sockets with
          | .panic => .panic
          | .err => .err
          | .ok sockets2 => .ok ([], cache, sockets2)
        | .TCP => .ok ([], cache, sockets)
        | .UNKNOWN => .ok ([], cache, sockets)
    | .ARP =>
      match handle_arp b1 devMac devIp cache with
      | .panic => .panic
      | .err => .err
      | .ok (none, cache2) => .ok ([], cache2, sockets)
      | .ok (some x, cache2) =>
        match x.serialize (EthernetFrame.new ethernet_frame.source devMac .ARP) with
        | .panic => .panic
        | .err => .err
        | .ok x2 => .ok ([x2.as_bytes], cache2, sockets)
    | .WAKE_ON_LAN => .ok ([], cache, sockets)
    | .RARP => .ok ([], cache, sockets)
    | .SLPP => .ok ([], cache, sockets)
    | .IPV6 => .ok ([], cache, sockets)
    | .UNKNOWN => .ok ([], cache, sockets)

/-! ## Theorems for the claims -/

/-- Claim C1 (code_bug evidence).  The byte-level round trip
`parse(serialize(v)) = v` fails for the Ethernet frame wire type: the encode
table at ethernet.rs:49 writes `RARP` as `0x0842` (the WakeOnLAN value), so
serializing a frame with ethertype RARP and parsing the resulting 14 bytes
yields a frame with ethertype WAKE_ON_LAN, a different valid value. -/
theorem c1_roundtrip_fails_on_rarp :
    EthernetFrame.from_slice
        (EthernetFrame.to_buffer ⟨⟨1, 2, 3, 4, 5, 6⟩, ⟨7, 8, 9, 10, 11, 12⟩, .RARP⟩)
      = .ok ⟨⟨1, 2, 3, 4, 5, 6⟩, ⟨7, 8, 9, 10, 11, 12⟩, .WAKE_ON_LAN⟩
    ∧ Ethertype.WAKE_ON_LAN ≠ Ethertype.RARP := by
  decide

/-- The IPv4 header of claim C3's failing input: DF = false, MF = true. -/
def c3Header : Ipv4Packet :=
  Ipv4Packet.new 0 0 20 0 false true 0 64 .UDP (Ipv4Addr.new 10 0 0 1) (Ipv4Addr.new 10 0 0 2)

/-- Claim C3 (code_bug evidence).  For a header with DF = false and MF =
true, the serialized flags/fragment-offset half-word has bit 14 SET and bit
13 CLEAR — ip.rs:167 shifts the MF flag to bit 14 (the claim and the spec
require MF at bit 13 with bit 14 clear). -/
theorem c3_mf_flag_written_at_bit14 :
    Nat.testBit (from_be16 (c3Header.write.getD 6 0) (c3Header.write.getD 7 0)) 14 = true
    ∧ Nat.testBit (from_be16 (c3Header.write.getD 6 0) (c3Header.write.getD 7 0)) 13 = false := by
  decide

/-- Claim C4 (code_bug evidence).  An emitted UDP packet does not carry
checksum 0: for source port 0, destination port 0 and the 1-byte payload
`[0]`, `to_buffer` writes length 9 = 8 + 1 (bytes 4..6) but checksum 0xFFDE
(bytes 6..8); and for the empty (even-length) payload the serializer aborts
on the odd checksum input instead of emitting anything. -/
theorem c4_udp_checksum_not_zero :
    UdpPacket.to_buffer (UdpPacket.new 0 0 [0]) = .ok [0, 0, 0, 0, 0, 9, 0xFF, 0xDE, 0]
    ∧ UdpPacket.to_buffer (UdpPacket.new 0 0 []) = .panic := by
  decide

/-- The IPv4 header of claim C5's scenario: version 4, IHL 5, tos 0, total
length 60, identification 4889, DF, no MF, fragment offset 0, TTL 64,
protocol TCP, 10.0.0.1 → 10.0.0.2. -/
def c5Header : Ipv4Packet :=
  Ipv4Packet.new 0 0 60 4889 true false 0 64 .TCP (Ipv4Addr.new 10 0 0 1) (Ipv4Addr.new 10 0 0 2)

/-- Claim C5 (counterexample).  Serializing the scenario header does NOT
produce the spec's byte string `45 00 00 3C 13 19 40 00 40 06 B1 E6 0A 00 00
01 0A 00 00 02`: the checksum bytes 10..12 differ. -/
theorem c5_spec_bytes_refuted :
    Ipv4Packet.write c5Header
      ≠ [0x45, 0x00, 0x00, 0x3C, 0x13, 0x19, 0x40, 0x00, 0x40, 0x06, 0xB1, 0xE6,
         0x0A, 0x00, 0x00, 0x01, 0x0A, 0x00, 0x00, 0x02] := by
  decide

/-- Claim C5 (amended).  Serializing the scenario header produces exactly the
20 bytes `45 00 00 3C 13 19 40 00 40 06 13 A1 0A 00 00 01 0A 00 00 02` —
bytes 10..11 are the RFC 1071 checksum 0x13A1 (matching the repository's own
unit test in ip.rs:233-239), not 0xB1E6. -/
theorem c5_serialized_bytes :
    Ipv4Packet.write c5Header
      = [0x45, 0x00, 0x00, 0x3C, 0x13, 0x19, 0x40, 0x00, 0x40, 0x06, 0x13, 0xA1,
         0x0A, 0x00, 0x00, 0x01, 0x0A, 0x00, 0x00, 0x02] := by
  decide

/-- The socket of claim C7's failing input: bound to port 9000 with a 2-byte
receive queue `[1, 2]`. -/
def c7Socket : Socket :=
  { type := .UDP
    source_port := some 9000
    source_address := none
    dest_port := none
    dest_protocol_address := none
    dest_hardware_address := none
    buffer := [1, 2] }

/-- Claim C7 (code_bug evidence).  With queue `[1, 2]` and `len = 1`, `recv`
returns 1 and copies `[1]`, but the queue afterwards is `[1]` — the call to
`truncate(queue_len − copy_size)` at net.rs:430 keeps the FIRST remaining
byte (the one just copied) and discards the tail, while the claim (and the
source's own comment at net.rs:428) require the remaining queue `[2]`. -/
theorem c7_recv_keeps_copied_bytes :
    recv [(0, c7Socket)] 0 1
      = .ok (1, [1], [(0, { c7Socket with buffer := [1] })]) := by
  decide

/-- The raw ingress frame of claim C8's failing input: an Ethernet header
with ethertype 0x0800, a 20-byte IPv4 header with protocol 1 (ICMP), 20
padding bytes (skipped because `FromBuffer for Ipv4Packet` reports size 40),
and the single ICMP byte 0x03 (DestinationUnreachable). -/
def c8Frame : List Nat :=
  List.replicate 12 0 ++ [0x08, 0x00]
    ++ ([0x45] ++ List.replicate 8 0 ++ [0x01] ++ List.replicate 10 0)
    ++ List.replicate 20 0 ++ [0x03]

/-- Claim C8 (code_bug evidence).  Handling one ingress frame CAN abort the
kernel: a frame whose ICMP payload has type 3 (DestinationUnreachable —
neither EchoRequest nor EchoReply) drives `IcmpPacket::from_slice` into its
`_ => panic` arm (icmp.rs:101), so `handle_packet` aborts instead of
dropping the frame silently. -/
theorem c8_icmp_non_echo_panics :
    handle_packet c8Frame ⟨0, 0, 0, 0, 0, 0⟩ ⟨10, 0, 0, 2⟩ [] [] = .panic := by
  decide

/-! ### C2: IPv4 checksum complement property -/

/-- One step of end-around-carry folding of a 32-bit accumulator into 16
bits. -/
def foldCarry (n : Nat) : Nat :=
  n % 65536 + n / 65536

/-- The 16-bit ones-complement sum of a list of 16-bit words: the plain sum
folded with end-around carry.  For up to ten 16-bit words two folding steps
reach the fixpoint (`foldCarry_fixpoint`). -/
def ocSum16 (words : List Nat) : Nat :=
  foldCarry (foldCarry words.sum)

/-- Two folds suffice for any accumulator of ten 16-bit words: a third
application of `foldCarry` changes nothing. -/
theorem foldCarry_fixpoint (s : Nat) (h : s ≤ 655350) :
    foldCarry (foldCarry (foldCarry s)) = foldCarry (foldCarry s) := by
  unfold foldCarry
  omega

/-- A `getD` read of a byte list whose members are all bytes is a byte
(the out-of-range default 0 included). -/
theorem getD_lt_of_forall (buf : List Nat) (i : Nat) (h : ∀ b ∈ buf, b < 256) :
    buf.getD i 0 < 256 := by
  induction buf generalizing i with
  | nil => simp [List.getD]
  | cons a t ih =>
    cases i with
    | zero => exact h a (by simp)
    | succ j =>
      simpa [List.getD] using ih j (fun b hb => h b (by simp [hb]))

/-- Every byte of the pre-checksum header image of a well-formed header is
below 256: the masked fields by their masks, the split fields by
construction, and the `u8` fields by well-formedness. -/
theorem write_zero_bytes_lt (p : Ipv4Packet) (h : p.wf) :
    ∀ b ∈ p.write_zero, b < 256 := by
  obtain ⟨httl, ⟨hs0, hs1, hs2, hs3⟩, ⟨hd0, hd1, hd2, hd3⟩⟩ := h
  have hb0 : ((p.version &&& 0xf) <<< 4) ||| (p.header_length &&& 0xf) < 256 := by
    have h1 : (p.version &&& 0xf) <<< 4 < 2 ^ 8 := by
      have := Nat.and_le_right (n := p.version) (m := 0xf)
      rw [Nat.shiftLeft_eq]
      omega
    have h2 : p.header_length &&& 0xf < 2 ^ 8 := by
      have := Nat.and_le_right (n := p.header_length) (m := 0xf)
      omega
    exact Nat.or_lt_two_pow h1 h2
  have hb1 : (p.dscp &&& 0xfc) ||| (p.ecn &&& 0x3) < 256 := by
    have h1 : p.dscp &&& 0xfc < 2 ^ 8 := by
      have := Nat.and_le_right (n := p.dscp) (m := 0xfc)
      omega
    have h2 : p.ecn &&& 0x3 < 2 ^ 8 := by
      have := Nat.and_le_right (n := p.ecn) (m := 0x3)
      omega
    exact Nat.or_lt_two_pow h1 h2
  have hproto : p.protocol.as_byte < 256 := by
    cases p.protocol <;> simp [Protocol.as_byte]
  intro b hb
  simp only [Ipv4Packet.write_zero, be16, Ipv4Addr.as_bytes, List.append_assoc,
    List.cons_append, List.nil_append, List.mem_cons, List.not_mem_nil, or_false] at hb
  rcases hb with hb | hb | hb | hb | hb | hb | hb | hb | hb | hb | hb | hb | hb | hb
    | hb | hb | hb | hb | hb | hb <;> subst hb <;> omega

/-- The ten header words of a buffer of bytes sum to at most `10 · 0xFFFF`,
so the 32-bit accumulator of `calculate_checksum` never overflows. -/
theorem headerWords_sum_le (buf : List Nat) (h : ∀ b ∈ buf, b < 256) :
    (ipv4HeaderWords buf).sum ≤ 655350 := by
  have hw : ∀ i j : Nat, from_be16 (buf.getD i 0) (buf.getD j 0) ≤ 65535 := by
    intro i j
    have hi := getD_lt_of_forall buf i h
    have hj := getD_lt_of_forall buf j h
    unfold from_be16
    omega
  simp only [ipv4HeaderWords, List.sum_cons, List.sum_nil]
  have h01 := hw 0 1
  have h23 := hw 2 3
  have h45 := hw 4 5
  have h67 := hw 6 7
  have h89 := hw 8 9
  have h1011 := hw 10 11
  have h1213 := hw 12 13
  have h1415 := hw 14 15
  have h1617 := hw 16 17
  have h1819 := hw 18 19
  omega

/-- Claim C2 (confirmed).  For every well-formed IPv4 header, the 16-bit
ones-complement sum of the ten serialized big-endian header words with the
checksum field taken as zero (`write_zero`), plus the checksum value written
at bytes 10..12 during serialization (`write`), equals 0xFFFF. -/
theorem c2_ipv4_checksum_complement (p : Ipv4Packet) (h : p.wf) :
    ocSum16 (ipv4HeaderWords p.write_zero)
      + from_be16 (p.write.getD 10 0) (p.write.getD 11 0) = 0xFFFF := by
  have hsum : (ipv4HeaderWords p.write_zero).sum ≤ 655350 :=
    headerWords_sum_le _ (write_zero_bytes_lt p h)
  have hc_le : Ipv4Packet.calculate_checksum p.write_zero ≤ 65535 := Nat.sub_le _ _
  have h10 : p.write.getD 10 0 = Ipv4Packet.calculate_checksum p.write_zero / 256 % 256 := rfl
  have h11 : p.write.getD 11 0 = Ipv4Packet.calculate_checksum p.write_zero % 256 := rfl
  have hget : from_be16 (p.write.getD 10 0) (p.write.getD 11 0)
      = Ipv4Packet.calculate_checksum p.write_zero := by
    rw [h10, h11]
    unfold from_be16
    omega
  rw [hget]
  simp only [ocSum16, foldCarry, Ipv4Packet.calculate_checksum]
  omega

/-- Witness for C2 at a concrete well-formed header. -/
theorem c2_witness :
    Ipv4Packet.wf (Ipv4Packet.new 0 0 84 7 true false 0 64 .ICMP
      (Ipv4Addr.new 192 168 0 1) (Ipv4Addr.new 10 0 0 2))
    ∧ ocSum16 (ipv4HeaderWords (Ipv4Packet.new 0 0 84 7 true false 0 64 .ICMP
        (Ipv4Addr.new 192 168 0 1) (Ipv4Addr.new 10 0 0 2)).write_zero)
      + from_be16 ((Ipv4Packet.new 0 0 84 7 true false 0 64 .ICMP
          (Ipv4Addr.new 192 168 0 1) (Ipv4Addr.new 10 0 0 2)).write.getD 10 0)
        ((Ipv4Packet.new 0 0 84 7 true false 0 64 .ICMP
          (Ipv4Addr.new 192 168 0 1) (Ipv4Addr.new 10 0 0 2)).write.getD 11 0) = 0xFFFF :=
  ⟨by decide, c2_ipv4_checksum_complement _ (by decide)⟩

/-! ### C9: socket id assignment -/

/-- The keys of the socket table, in iteration order. -/
def Sockets.keys (sockets : Sockets) : List Nat :=
  sockets.map (fun kv => kv.1)

/-- Inserting a key above every existing key appends at the end of the
sorted table. -/
theorem Sockets.insert_of_forall_lt (k : Nat) (v : Socket) :
    ∀ l : Sockets, (∀ j ∈ Sockets.keys l, j < k) → Sockets.insert k v l = l ++ [(k, v)]
  | [], _ => rfl
  | (k2, v2) :: rest, h => by
    have hk2 : k2 < k := h k2 (by simp [Sockets.keys])
    unfold Sockets.insert
    rw [if_neg (by omega), if_neg (by omega)]
    rw [Sockets.insert_of_forall_lt k v rest
      (fun j hj => h j (by simp [Sockets.keys] at hj ⊢; exact Or.inr hj))]
    rfl

/-- The socket of claim C9's runs: the blank socket inserted by
`create_socket`. -/
def c9Blank : Socket :=
  { type := .UDP
    source_port := none
    source_address := none
    dest_port := none
    dest_protocol_address := none
    dest_hardware_address := none
    buffer := [] }

/-- Claim C9 (counterexample).  The run `socket; socket; shutdown 0; socket`
violates the claim: the first two calls return ids 0 and 1, the shutdown
leaves the table `[(1, blank)]`, and the third `socket` call returns id 1
again — an id already returned earlier — and its insert overwrites the live
socket 1 (the table still has a single entry afterwards). -/
theorem c9_id_reused_after_shutdown :
    (create_socket .UDP []).1 = 0
    ∧ (create_socket .UDP (create_socket .UDP []).2).1 = 1
    ∧ shutdown_socket (create_socket .UDP (create_socket .UDP []).2).2 0 = .ok [(1, c9Blank)]
    ∧ (create_socket .UDP [(1, c9Blank)]).1 = 1
    ∧ 1 ∈ Sockets.keys [(1, c9Blank)]
    ∧ (create_socket .UDP [(1, c9Blank)]).2 = [(1, c9Blank)] := by
  decide

/-- Claim C9 (amended).  As long as no socket has been shut down — i.e. the
table keys are exactly `0 .. len−1`, which `create_socket` preserves —
`create_socket` returns an id strictly greater than every existing id, never
replaces a live entry, and re-establishes the key invariant.  (After a
shutdown the invariant can break and an id may be reused, as the
counterexample run shows.) -/
theorem c9_ids_fresh_without_shutdown (domain : SocketType) (sockets : Sockets)
    (h : Sockets.keys sockets = List.range sockets.length) :
    (create_socket domain sockets).1 ∉ Sockets.keys sockets
    ∧ (∀ j ∈ Sockets.keys sockets, j < (create_socket domain sockets).1)
    ∧ Sockets.keys (create_socket domain sockets).2 = List.range (sockets.length + 1) := by
  have hlt : ∀ j ∈ Sockets.keys sockets, j < sockets.length := by
    rw [h]
    exact fun j hj => List.mem_range.mp hj
  have hfst : (create_socket domain sockets).1 = sockets.length := rfl
  refine ⟨?_, ?_, ?_⟩
  · rw [hfst, h]
    simp [List.mem_range]
  · rw [hfst]
    exact hlt
  · show Sockets.keys (Sockets.insert sockets.length _ sockets) = _
    rw [Sockets.insert_of_forall_lt _ _ _ hlt, List.range_succ, ← h]
    simp [Sockets.keys]

/-- Witness for C9's amended theorem on a one-entry table satisfying the
no-shutdown invariant. -/
theorem c9_witness :
    Sockets.keys [(0, c9Blank)] = List.range ([(0, c9Blank)] : Sockets).length
    ∧ (create_socket .UDP [(0, c9Blank)]).1 ∉ Sockets.keys [(0, c9Blank)]
    ∧ Sockets.keys (create_socket .UDP [(0, c9Blank)]).2 = List.range 2 :=
  ⟨by decide,
   (c9_ids_fresh_without_shutdown .UDP [(0, c9Blank)] (by decide)).1,
   (c9_ids_fresh_without_shutdown .UDP [(0, c9Blank)] (by decide)).2.2⟩

/-! ### C10: connect aborts on destination ports with the high bit set -/

/-- Claim C10 (confirmed).  For every existing socket, whenever the ARP
resolution step produces a hardware address — either a cache hit or a cache
entry appearing during the busy-wait — and the destination port truncated to
16 bits has its high bit set, `connect` aborts at the final
`(dest_port as i16).try_into().unwrap()` conversion instead of returning an
error. -/
theorem c10_connect_panics_on_high_port (sockets : Sockets) (socket_id : Nat)
    (dest_address dest_port : Nat) (cache_hit cache_after_wait : Option EthernetAddress)
    (mac : EthernetAddress) (s : Socket)
    (hsock : sockets.lookup socket_id = some s)
    (hres : cache_hit = some mac ∨ (cache_hit = none ∧ cache_after_wait = some mac))
    (hport : 32768 ≤ dest_port % 65536) :
    connect sockets socket_id dest_address dest_port cache_hit cache_after_wait = .panic := by
  unfold connect
  rw [hsock]
  rcases hres with h | ⟨h1, h2⟩
  · rw [h]
    simp [hport]
  · rw [h1, h2]
    simp [hport]

/-! ### C6: ARP request handling emits exactly the reply frame -/

theorem ethertype_as_bytes_length (t : Ethertype) : t.as_bytes.length = 2 := by
  cases t <;> rfl

theorem hwtype_as_bytes_length (t : HardwareType) : t.as_bytes.length = 2 := by
  cases t <;> rfl

theorem ptype_as_bytes_length (t : ProtocolType) : t.as_bytes.length = 2 := by
  cases t <;> rfl

theorem oper_as_bytes_length (t : Operation) : t.as_bytes.length = 2 := by
  cases t <;> rfl

theorem eth_to_buffer_length (f : EthernetFrame) : f.to_buffer.length = 14 := by
  simp [EthernetFrame.to_buffer, EthernetAddress.as_bytes, ethertype_as_bytes_length]

theorem arp_to_buffer_length (p : ArpPacket) : p.to_buffer.length = 28 := by
  simp [ArpPacket.to_buffer, EthernetAddress.as_bytes, Ipv4Addr.as_bytes,
    hwtype_as_bytes_length, ptype_as_bytes_length, oper_as_bytes_length]

/-- Parsing the serialization of an Ethernet frame with ethertype ARP (with
any trailing payload) returns the frame unchanged. -/
theorem EthernetFrame.from_slice_arp (d s : EthernetAddress) (rest : List Nat) :
    EthernetFrame.from_slice (EthernetFrame.to_buffer ⟨d, s, .ARP⟩ ++ rest)
      = .ok ⟨d, s, .ARP⟩ := by
  have hlen : ¬ ((EthernetFrame.to_buffer ⟨d, s, .ARP⟩ ++ rest).length < 14) := by
    rw [List.length_append, eth_to_buffer_length]
    omega
  unfold EthernetFrame.from_slice
  rw [if_neg hlen]
  rfl

set_option maxHeartbeats 1000000 in
/-- Parsing the serialization of any ARP packet (with any trailing payload)
returns the packet unchanged: all three tag enums round-trip on every
constructor. -/
theorem ArpPacket.from_slice_to_buffer (p : ArpPacket) (rest : List Nat) :
    ArpPacket.from_slice (p.to_buffer ++ rest) = .ok p := by
  have hlen : ¬ ((p.to_buffer ++ rest).length < 28) := by
    rw [List.length_append, arp_to_buffer_length]
    omega
  unfold ArpPacket.from_slice
  rw [if_neg hlen]
  obtain ⟨ht, pt, hl, pl, op, sha, spa, tha, tpa⟩ := p
  cases ht <;> cases pt <;> cases op <;> rfl

/-- `serialize` into a fresh buffer of capacity `n`: the live region becomes
the serialized bytes, right-aligned. -/
theorem PacketBuffer.serialize_new {α : Type} [ToBuffer α] (a : α) (ta : List Nat) (n : Nat)
    (ha : ToBuffer.to_buffer a = .ok ta) (hsa : ToBuffer.size a = ta.length)
    (hle : ta.length ≤ n) :
    (PacketBuffer.new n).serialize a
      = .ok ⟨List.replicate (n - ta.length) 0 ++ ta, ta.length, true⟩ := by
  simp only [PacketBuffer.serialize, PacketBuffer.new, ha, hsa, Nat.zero_add]
  rw [if_neg (by simp only [List.length_replicate]; omega)]
  have h1 : min (n - ta.length) n = n - ta.length := by omega
  have h2 : n - ta.length + ta.length = n := by omega
  simp [List.take_replicate, List.drop_replicate, h1, h2]

/-- `serialize` into a buffer whose live region is `prev` (right-aligned
after an earlier serialization): the new bytes are prepended in front of
`prev`. -/
theorem PacketBuffer.serialize_prepend {α : Type} [ToBuffer α] (a : α) (ta : List Nat)
    (m off : Nat) (prev : List Nat) (w : Bool)
    (ha : ToBuffer.to_buffer a = .ok ta) (hsa : ToBuffer.size a = ta.length)
    (hoff : off = prev.length) (hle : ta.length ≤ m) :
    (PacketBuffer.mk (List.replicate m 0 ++ prev) off w).serialize a
      = .ok ⟨List.replicate (m - ta.length) 0 ++ (ta ++ prev), off + ta.length, true⟩ := by
  subst hoff
  simp only [PacketBuffer.serialize, ha, hsa]
  rw [if_neg (by simp only [List.length_append, List.length_replicate]; omega)]
  have hstart : (List.replicate m 0 ++ prev).length - (prev.length + ta.length)
      = m - ta.length := by
    simp only [List.length_append, List.length_replicate]
    omega
  rw [hstart]
  have htake : (List.replicate m 0 ++ prev).take (m - ta.length)
      = List.replicate (m - ta.length) 0 := by
    rw [List.take_append_eq_append_take, List.take_replicate]
    have h1 : min (m - ta.length) m = m - ta.length := by omega
    have h2 : m - ta.length - (List.replicate m (0 : Nat)).length = 0 := by
      simp only [List.length_replicate]
      omega
    rw [h1, h2]
    simp
  have hdrop : (List.replicate m 0 ++ prev).drop (m - ta.length + ta.length) = prev := by
    rw [List.drop_append_eq_append_drop, List.drop_replicate]
    have h1 : m - ta.length + ta.length = m := by omega
    rw [h1]
    simp
  rw [htake, hdrop]
  simp

/-- The live bytes of a written buffer whose content is right-aligned. -/
theorem PacketBuffer.as_bytes_trailing (k off : Nat) (bs : List Nat)
    (hoff : off = bs.length) :
    PacketBuffer.as_bytes ⟨List.replicate k 0 ++ bs, off, true⟩ = bs := by
  subst hoff
  simp only [PacketBuffer.as_bytes, if_pos]
  have h1 : (List.replicate k (0 : Nat) ++ bs).length - bs.length = k := by simp
  rw [h1, List.drop_append_eq_append_drop, List.drop_replicate]
  simp

/-- Claim C6 (confirmed).  Feeding the pipeline an Ethernet frame that
carries an ARP Request whose target protocol address is the device's own
address emits exactly one frame — Ethernet destination = the requester's MAC
(the source field of the ingress frame), source = the device MAC, ethertype
ARP — carrying `from_request` of the request (oper = Reply, sha = device
MAC, spa = request.tpa, tha = request.sha, tpa = request.spa), and leaves
the ARP cache and socket table unchanged. -/
theorem c6_arp_request_reply (dst src devMac : EthernetAddress) (devIp : Ipv4Addr)
    (req : ArpPacket) (cache : ArpCache) (sockets : Sockets)
    (hop : req.oper = .Request) (htpa : req.tpa = devIp) :
    handle_packet (EthernetFrame.to_buffer ⟨dst, src, .ARP⟩ ++ ArpPacket.to_buffer req)
        devMac devIp cache sockets
      = .ok ([EthernetFrame.to_buffer ⟨src, devMac, .ARP⟩
               ++ ArpPacket.to_buffer (ArpPacket.from_request req devMac)],
             cache, sockets) := by
  set F := EthernetFrame.to_buffer ⟨dst, src, .ARP⟩ ++ ArpPacket.to_buffer req with hF
  have hfb1 : FromBuffer.from_buffer (α := EthernetFrame) (F.drop 0)
      = .ok (⟨dst, src, .ARP⟩ : EthernetFrame) := by
    rw [List.drop_zero, hF]
    exact EthernetFrame.from_slice_arp dst src _
  have hparse1 : ((⟨F, 0, false⟩ : PacketBuffer).parse EthernetFrame)
      = .ok (⟨dst, src, .ARP⟩, ⟨F, 14, false⟩) := by
    simp only [PacketBuffer.parse, hfb1]
    rfl
  have hfb2 : FromBuffer.from_buffer (α := ArpPacket) (F.drop 14) = .ok req := by
    rw [hF]
    rw [show (14 : Nat) = (EthernetFrame.to_buffer ⟨dst, src, .ARP⟩).length from
      (eth_to_buffer_length _).symm]
    rw [List.drop_left]
    rw [← List.append_nil (ArpPacket.to_buffer req)]
    exact ArpPacket.from_slice_to_buffer req []
  have hparse2 : ((⟨F, 14, false⟩ : PacketBuffer).parse ArpPacket)
      = .ok (req, ⟨F, 42, false⟩) := by
    have hlen : ¬ (F.length < 14) := by
      rw [hF, List.length_append, eth_to_buffer_length]
      omega
    simp only [PacketBuffer.parse, hfb2, hlen, if_false]
    rfl
  have hser1 : (PacketBuffer.new BUFFER_SIZE).serialize (ArpPacket.from_request req devMac)
      = .ok ⟨List.replicate (BUFFER_SIZE - 28) 0
               ++ ArpPacket.to_buffer (ArpPacket.from_request req devMac), 28, true⟩ := by
    have := PacketBuffer.serialize_new (ArpPacket.from_request req devMac)
      (ArpPacket.to_buffer (ArpPacket.from_request req devMac)) BUFFER_SIZE rfl
      (arp_to_buffer_length _).symm
      (by rw [arp_to_buffer_length]; simp [BUFFER_SIZE])
    rwa [arp_to_buffer_length] at this
  have harp : handle_arp (⟨F, 14, false⟩ : PacketBuffer) devMac devIp cache
      = .ok (some ⟨List.replicate (BUFFER_SIZE - 28) 0
                     ++ ArpPacket.to_buffer (ArpPacket.from_request req devMac), 28, true⟩,
             cache) := by
    simp only [handle_arp, hparse2, hop, htpa, if_pos, hser1]
  have hser2 : ((⟨List.replicate (BUFFER_SIZE - 28) 0
          ++ ArpPacket.to_buffer (ArpPacket.from_request req devMac), 28, true⟩ :
        PacketBuffer).serialize (⟨src, devMac, .ARP⟩ : EthernetFrame))
      = .ok ⟨List.replicate (BUFFER_SIZE - 28 - 14) 0
               ++ (EthernetFrame.to_buffer ⟨src, devMac, .ARP⟩
                     ++ ArpPacket.to_buffer (ArpPacket.from_request req devMac)),
             28 + 14, true⟩ := by
    have := PacketBuffer.serialize_prepend (⟨src, devMac, .ARP⟩ : EthernetFrame)
      (EthernetFrame.to_buffer ⟨src, devMac, .ARP⟩)
      (BUFFER_SIZE - 28) 28
      (ArpPacket.to_buffer (ArpPacket.from_request req devMac)) true rfl
      (eth_to_buffer_length _).symm
      (arp_to_buffer_length _).symm
      (by rw [eth_to_buffer_length]; simp [BUFFER_SIZE])
    rwa [eth_to_buffer_length] at this
  have hemit : PacketBuffer.as_bytes
      ⟨List.replicate (BUFFER_SIZE - 28 - 14) 0
         ++ (EthernetFrame.to_buffer ⟨src, devMac, .ARP⟩
               ++ ArpPacket.to_buffer (ArpPacket.from_request req devMac)),
       28 + 14, true⟩
      = EthernetFrame.to_buffer ⟨src, devMac, .ARP⟩
          ++ ArpPacket.to_buffer (ArpPacket.from_request req devMac) :=
    PacketBuffer.as_bytes_trailing _ _ _
      (by rw [List.length_append, eth_to_buffer_length, arp_to_buffer_length])
  simp only [handle_packet, PacketBuffer.new_from_bytes, EthernetFrame.new, hparse1, harp,
    hser2, hemit]

/-- Witness for C6: a concrete broadcast ARP request for 10.0.0.2 from
02:03:04:05:06:07 at 10.0.0.1, handled by a device with MAC
52:54:00:12:34:56 and IP 10.0.0.2, starting from an empty cache and socket
table. -/
theorem c6_witness :
    handle_packet
        (EthernetFrame.to_buffer ⟨⟨0xFF, 0xFF, 0xFF, 0xFF, 0xFF, 0xFF⟩,
            ⟨2, 3, 4, 5, 6, 7⟩, .ARP⟩
          ++ ArpPacket.to_buffer ⟨.Ethernet, .Ipv4, 6, 4, .Request, ⟨2, 3, 4, 5, 6, 7⟩,
              ⟨10, 0, 0, 1⟩, ⟨0xFF, 0xFF, 0xFF, 0xFF, 0xFF, 0xFF⟩, ⟨10, 0, 0, 2⟩⟩)
        ⟨0x52, 0x54, 0, 0x12, 0x34, 0x56⟩ ⟨10, 0, 0, 2⟩ [] []
      = .ok ([EthernetFrame.to_buffer ⟨⟨2, 3, 4, 5, 6, 7⟩,
                ⟨0x52, 0x54, 0, 0x12, 0x34, 0x56⟩, .ARP⟩
               ++ ArpPacket.to_buffer (ArpPacket.from_request
                    ⟨.Ethernet, .Ipv4, 6, 4, .Request, ⟨2, 3, 4, 5, 6, 7⟩, ⟨10, 0, 0, 1⟩,
                     ⟨0xFF, 0xFF, 0xFF, 0xFF, 0xFF, 0xFF⟩, ⟨10, 0, 0, 2⟩⟩
                    ⟨0x52, 0x54, 0, 0x12, 0x34, 0x56⟩)],
             [], []) :=
  c6_arp_request_reply ⟨0xFF, 0xFF, 0xFF, 0xFF, 0xFF, 0xFF⟩ ⟨2, 3, 4, 5, 6, 7⟩
    ⟨0x52, 0x54, 0, 0x12, 0x34, 0x56⟩ ⟨10, 0, 0, 2⟩
    ⟨.Ethernet, .Ipv4, 6, 4, .Request, ⟨2, 3, 4, 5, 6, 7⟩, ⟨10, 0, 0, 1⟩,
     ⟨0xFF, 0xFF, 0xFF, 0xFF, 0xFF, 0xFF⟩, ⟨10, 0, 0, 2⟩⟩
    [] [] rfl rfl

/-- Witness for C10: socket 0 exists, the cache already resolves the
destination, and destination port 40000 has bit 15 set. -/
theorem c10_witness :
    ([(0, c9Blank)] : Sockets).lookup 0 = some c9Blank
    ∧ 32768 ≤ 40000 % 65536
    ∧ connect [(0, c9Blank)] 0 0x0A000009 40000 (some ⟨0xAA, 0xBB, 0xCC, 0xDD, 0xEE, 0xFF⟩)
        none = .panic :=
  ⟨by decide, by decide,
   c10_connect_panics_on_high_port _ _ _ _ _ _ ⟨0xAA, 0xBB, 0xCC, 0xDD, 0xEE, 0xFF⟩ c9Blank
     (by decide) (Or.inl rfl) (by decide)⟩

end XvNet
